import Mathlib

/-!
Shallow embedding of the inventory-management backend (Express + PostgreSQL).

The embedding translates the route handlers into pure Lean functions over an
explicit state:

* stock router (POST /stock/products/:id, PUT /stock/movements/:id,
  DELETE /stock/movements/:id): quantity arithmetic, guards, and the
  two-statement transaction;
* auth router (POST /auth/login, PUT /auth/users/:id,
  PATCH /auth/users/:id/status, DELETE /auth/users/:id);
* products router (GET /products, GET /products/:id, POST /products,
  DELETE /products/:id).

External libraries (bcrypt comparison, jwt signing, the Joi e-mail format
check, SQL ILIKE) are modelled as function parameters; machine integers of
JavaScript are modelled as Int (product quantities can go negative exactly
where the code lets them), and database rows as lists of structures.
-/

namespace Inventory

/-- A row of the products table, with the columns the routes read and write
(id, name, sku, description, category_id, supplier_id, price, quantity,
low_stock_threshold, is_active). -/
structure Product where
  id : Nat
  name : String
  sku : String
  description : String
  categoryId : Nat
  supplierId : Nat
  price : Int
  quantity : Int
  lowStockThreshold : Int
  isActive : Bool
  deriving Repr, DecidableEq

/-- A row of the stock_movements table. -/
structure StockMovement where
  id : Nat
  productId : Nat
  quantity : Int
  type : String
  reason : String
  reference : String
  notes : String
  userId : Nat
  deriving Repr, DecidableEq

/-- The database state the stock and products routes touch: products,
stock_movements, and the id sets of categories and suppliers used by the
pre-flight existence checks of POST /products. -/
structure InvState where
  products : List Product
  movements : List StockMovement
  categories : List Nat
  suppliers : List Nat
  deriving Repr, DecidableEq

/-- Body of a stock-movement request (POST /stock/products/:id and
PUT /stock/movements/:id share the same Joi schema). -/
structure StockMovementReq where
  quantity : Int
  type : String
  reason : String
  reference : String
  notes : String
  deriving Repr, DecidableEq

/-- Joi stockMovementSchema: quantity integer positive, type in/out,
reason 2..500 chars, reference up to 255, notes up to 1000. -/
def stockMovementSchemaOk (r : StockMovementReq) : Bool :=
  decide (0 < r.quantity) &&
  (r.type == "in" || r.type == "out") &&
  decide (2 ≤ r.reason.length) && decide (r.reason.length ≤ 500) &&
  decide (r.reference.length ≤ 255) &&
  decide (r.notes.length ≤ 1000)

/-- Outcome of a stock route, tagged with the JSON error code or the
previous/new quantities of the success payload. -/
inductive StockResult where
  | validationError : StockResult
  | productNotFound : StockResult
  | movementNotFound : StockResult
  | insufficientStock (available requested : Int) : StockResult
  | negativeStock : StockResult
  | txRolledBack : StockResult
  | ok (previousQuantity newQuantity : Int) : StockResult
  deriving Repr, DecidableEq

/-- SELECT ... FROM products WHERE id = $1 AND is_active = true. -/
def findActiveProduct (ps : List Product) (pid : Nat) : Option Product :=
  ps.find? (fun p => p.id == pid && p.isActive)

/-- SELECT ... FROM products WHERE id = $1 (no is_active filter; used by the
JOIN of the movement routes). -/
def findProduct (ps : List Product) (pid : Nat) : Option Product :=
  ps.find? (fun p => p.id == pid)

/-- UPDATE products SET quantity = $1 WHERE id = $2. -/
def setProductQuantity (ps : List Product) (pid : Nat) (q : Int) : List Product :=
  ps.map (fun p => if p.id == pid then { p with quantity := q } else p)

/-- The stock_movements row inserted by POST /stock/products/:id. -/
def mkStockMovement (mid pid : Nat) (r : StockMovementReq) (uid : Nat) : StockMovement :=
  { id := mid, productId := pid, quantity := r.quantity, type := r.type,
    reason := r.reason, reference := r.reference, notes := r.notes, userId := uid }

/-- POST /stock/products/:id. Validates the body, looks up the active
product, computes the new quantity (rejecting an out movement that exceeds
the current quantity), then runs the two writes in one transaction.
writeFails = true models a write failure inside the transaction: the
ROLLBACK leaves the state unchanged. -/
def postStockMovement (s : InvState) (pid : Nat) (r : StockMovementReq)
    (uid mid : Nat) (writeFails : Bool) : StockResult × InvState :=
  if !stockMovementSchemaOk r then (.validationError, s)
  else
    match findActiveProduct s.products pid with
    | none => (.productNotFound, s)
    | some product =>
      let currentQuantity := product.quantity
      if r.type == "in" then
        if writeFails then (.txRolledBack, s)
        else
          (.ok currentQuantity (currentQuantity + r.quantity),
           { s with
               products := setProductQuantity s.products pid (currentQuantity + r.quantity),
               movements := s.movements ++ [mkStockMovement mid pid r uid] })
      else
        if currentQuantity < r.quantity then
          (.insufficientStock currentQuantity r.quantity, s)
        else
          if writeFails then (.txRolledBack, s)
          else
            (.ok currentQuantity (currentQuantity - r.quantity),
             { s with
                 products := setProductQuantity s.products pid (currentQuantity - r.quantity),
                 movements := s.movements ++ [mkStockMovement mid pid r uid] })

/-- The quantity the product would have after reversing a movement: current
minus the movement quantity for an in movement, plus for anything else
(mirrors the else branch of the handlers). -/
def quantityAfterReversal (p : Product) (m : StockMovement) : Int :=
  if m.type == "in" then p.quantity - m.quantity else p.quantity + m.quantity

/-- UPDATE stock_movements SET quantity, type, reason, reference, notes
WHERE id = $6 (user_id and product_id are not touched). -/
def updateMovementRecord (ms : List StockMovement) (mid : Nat)
    (r : StockMovementReq) : List StockMovement :=
  ms.map (fun mv =>
    if mv.id == mid then
      { mv with quantity := r.quantity, type := r.type, reason := r.reason,
                reference := r.reference, notes := r.notes }
    else mv)

/-- The transactional write of PUT /stock/movements/:id: rewrite the
movement row and set the product quantity to the final value. -/
def putWrite (s : InvState) (mid : Nat) (r : StockMovementReq)
    (m : StockMovement) (finalQuantity : Int) : InvState :=
  { s with
      movements := updateMovementRecord s.movements mid r,
      products := setProductQuantity s.products m.productId finalQuantity }

/-- PUT /stock/movements/:id. Validates the body, loads the movement joined
with its product, computes the quantity after reversing the stored movement,
then applies the new movement. Only the out branch checks the reversed
quantity against the requested quantity; the in branch persists
unconditionally. -/
def putStockMovement (s : InvState) (mid : Nat) (r : StockMovementReq) :
    StockResult × InvState :=
  if !stockMovementSchemaOk r then (.validationError, s)
  else
    match s.movements.find? (fun mv => mv.id == mid) with
    | none => (.movementNotFound, s)
    | some m =>
      match findProduct s.products m.productId with
      | none => (.movementNotFound, s)
      | some p =>
        let qar := quantityAfterReversal p m
        if r.type == "in" then
          (.ok p.quantity (qar + r.quantity), putWrite s mid r m (qar + r.quantity))
        else
          if qar < r.quantity then (.insufficientStock qar r.quantity, s)
          else (.ok p.quantity (qar - r.quantity), putWrite s mid r m (qar - r.quantity))

/-- DELETE /stock/movements/:id. Loads the movement joined with its product,
computes the reversed quantity, rejects if it would be negative, otherwise
sets the product quantity and deletes the movement row in one transaction. -/
def deleteStockMovement (s : InvState) (mid : Nat) : StockResult × InvState :=
  match s.movements.find? (fun mv => mv.id == mid) with
  | none => (.movementNotFound, s)
  | some m =>
    match findProduct s.products m.productId with
    | none => (.movementNotFound, s)
    | some p =>
      let nq := if m.type == "in" then p.quantity - m.quantity
                else p.quantity + m.quantity
      if nq < 0 then (.negativeStock, s)
      else
        (.ok p.quantity nq,
         { s with
             products := setProductQuantity s.products m.productId nq,
             movements := s.movements.filter (fun mv => !(mv.id == mid)) })

/-- States reachable by the three stock routes from an initial state with an
empty movement ledger and non-negative product quantities (products are
created by POST /products, whose Joi schema requires quantity at least 0). -/
inductive Reachable : InvState → Prop where
  | init (s : InvState) (hm : s.movements = [])
      (hq : ∀ p ∈ s.products, 0 ≤ p.quantity) : Reachable s
  | postStep (s : InvState) (pid : Nat) (r : StockMovementReq) (uid mid : Nat)
      (hs : Reachable s) : Reachable (postStockMovement s pid r uid mid false).2
  | putStep (s : InvState) (mid : Nat) (r : StockMovementReq)
      (hs : Reachable s) : Reachable (putStockMovement s mid r).2
  | delStep (s : InvState) (mid : Nat)
      (hs : Reachable s) : Reachable (deleteStockMovement s mid).2

/-- A row of the users table. -/
structure User where
  id : Nat
  name : String
  email : String
  passwordHash : String
  role : String
  status : String
  deriving Repr, DecidableEq

/-- Body of PUT /auth/users/:id: every field optional (Joi
updateUserSchema). -/
structure UserUpdate where
  name : Option String
  email : Option String
  password : Option String
  role : Option String
  status : Option String
  deriving Repr, DecidableEq

/-- Joi updateUserSchema: name 2..255 chars, email must pass the Joi e-mail
format check (modelled by the emailOk parameter), password at least 6 chars,
role user or admin, status active or inactive; absent fields pass. -/
def updateUserSchemaOk (emailOk : String → Bool) (u : UserUpdate) : Bool :=
  (match u.name with
   | none => true
   | some n => decide (2 ≤ n.length) && decide (n.length ≤ 255)) &&
  (match u.email with
   | none => true
   | some e => emailOk e) &&
  (match u.password with
   | none => true
   | some pw => decide (6 ≤ pw.length)) &&
  (match u.role with
   | none => true
   | some ro => ro == "user" || ro == "admin") &&
  (match u.status with
   | none => true
   | some st => st == "active" || st == "inactive")

/-- Outcome of a user-management route, tagged with the JSON error code; ok
carries the RETURNING row of the UPDATE. -/
inductive UserResult where
  | validationError : UserResult
  | userNotFound : UserResult
  | emailExists : UserResult
  | noUpdates : UserResult
  | invalidStatus : UserResult
  | lastAdmin : UserResult
  | ok (u : User) : UserResult
  deriving Repr, DecidableEq

/-- SELECT COUNT(*) FROM users WHERE role = 'admin' AND status = 'active'. -/
def countActiveAdmins (users : List User) : Nat :=
  (users.filter (fun u => u.role == "admin" && u.status == "active")).length

/-- UPDATE users SET status = $1 WHERE id = $2. -/
def setUserStatus (users : List User) (id : Nat) (st : String) : List User :=
  users.map (fun u => if u.id == id then { u with status := st } else u)

/-- DELETE /auth/users/:id (soft delete). Rejects when the target is an
admin and at most one active admin exists; otherwise sets the status to
inactive. -/
def deleteUser (users : List User) (id : Nat) : UserResult × List User :=
  match users.find? (fun u => u.id == id) with
  | none => (.userNotFound, users)
  | some u =>
    if u.role == "admin" && decide (countActiveAdmins users ≤ 1) then
      (.lastAdmin, users)
    else
      (.ok { u with status := "inactive" }, setUserStatus users id "inactive")

/-- PATCH /auth/users/:id/status. Rejects a status outside active/inactive,
guards the last active admin when deactivating an admin, otherwise writes
the status. -/
def patchUserStatus (users : List User) (id : Nat) (st : String) :
    UserResult × List User :=
  if !(st == "active" || st == "inactive") then (.invalidStatus, users)
  else
    match users.find? (fun u => u.id == id) with
    | none => (.userNotFound, users)
    | some u =>
      if st == "inactive" && u.role == "admin" &&
          decide (countActiveAdmins users ≤ 1) then
        (.lastAdmin, users)
      else
        (.ok { u with status := st }, setUserStatus users id st)

/-- The dynamic SET clause of PUT /auth/users/:id applied to one row:
present fields overwrite, the password is stored hashed (hashPw models
bcrypt.hash). -/
def applyUserUpdate (hashPw : String → String) (u : User) (upd : UserUpdate) : User :=
  { u with
      name := upd.name.getD u.name,
      email := upd.email.getD u.email,
      passwordHash := (upd.password.map hashPw).getD u.passwordHash,
      role := upd.role.getD u.role,
      status := upd.status.getD u.status }

/-- PUT /auth/users/:id. Validates the body, checks the user exists, checks
e-mail uniqueness when an e-mail is supplied, rejects an empty update, then
runs the dynamic UPDATE. There is no last-admin check on this route. -/
def putUser (emailOk : String → Bool) (hashPw : String → String)
    (users : List User) (id : Nat) (upd : UserUpdate) : UserResult × List User :=
  if !updateUserSchemaOk emailOk upd then (.validationError, users)
  else
    match users.find? (fun u => u.id == id) with
    | none => (.userNotFound, users)
    | some u =>
      if match upd.email with
         | none => false
         | some e => users.any (fun v => v.email == e && !(v.id == id)) then
        (.emailExists, users)
      else
        if upd.name.isNone && upd.email.isNone && upd.password.isNone &&
            upd.role.isNone && upd.status.isNone then
          (.noUpdates, users)
        else
          (.ok (applyUserUpdate hashPw u upd),
           users.map (fun v => if v.id == id then applyUserUpdate hashPw v upd else v))

/-- Outcome of POST /auth/login. success carries the signed token and the
user payload fields of the response body. -/
inductive LoginResult where
  | validationError : LoginResult
  | invalidCredentials : LoginResult
  | success (token : String) (id : Nat) (name : String) (email : String)
      (role : String) : LoginResult
  deriving Repr, DecidableEq

/-- POST /auth/login. Joi loginSchema first (e-mail format via emailOk,
password at least 6 chars), then SELECT by e-mail, then the bcrypt
comparison (checkPw password passwordHash), then jwt.sign (signToken userId
email). A missing user and a failed comparison both return
INVALID_CREDENTIALS. -/
def login (emailOk : String → Bool) (checkPw : String → String → Bool)
    (signToken : Nat → String → String) (users : List User)
    (email password : String) : LoginResult :=
  if !(emailOk email && decide (6 ≤ password.length)) then .validationError
  else
    match users.find? (fun u => u.email == email) with
    | none => .invalidCredentials
    | some u =>
      if checkPw password u.passwordHash then
        .success (signToken u.id u.email) u.id u.name u.email u.role
      else .invalidCredentials

/-- Body of POST /products. -/
structure ProductReq where
  name : String
  description : String
  sku : String
  categoryId : Nat
  price : Int
  quantity : Int
  lowStockThreshold : Int
  supplierId : Nat
  deriving Repr, DecidableEq

/-- Joi productSchema: name 2..255, sku 3..100, categoryId and supplierId
positive, price positive, quantity and lowStockThreshold at least 0. -/
def productSchemaOk (r : ProductReq) : Bool :=
  decide (2 ≤ r.name.length) && decide (r.name.length ≤ 255) &&
  decide (3 ≤ r.sku.length) && decide (r.sku.length ≤ 100) &&
  decide (0 < r.categoryId) &&
  decide (0 < r.price) &&
  decide (0 ≤ r.quantity) &&
  decide (0 ≤ r.lowStockThreshold) &&
  decide (0 < r.supplierId)

/-- Outcome of a products route, tagged with the JSON error code. -/
inductive ProductResult where
  | validationError : ProductResult
  | skuExists : ProductResult
  | categoryNotFound : ProductResult
  | supplierNotFound : ProductResult
  | productNotFound : ProductResult
  | created (id : Nat) : ProductResult
  | deleted (id : Nat) : ProductResult
  deriving Repr, DecidableEq

/-- POST /products. Validation, then the pre-flight SELECTs: duplicate sku
(409 SKU_EXISTS), category exists, supplier exists; then the INSERT. -/
def createProduct (s : InvState) (r : ProductReq) (newId : Nat) :
    ProductResult × InvState :=
  if !productSchemaOk r then (.validationError, s)
  else
    match s.products.find? (fun p => p.sku == r.sku) with
    | some _ => (.skuExists, s)
    | none =>
      if !(s.categories.contains r.categoryId) then (.categoryNotFound, s)
      else if !(s.suppliers.contains r.supplierId) then (.supplierNotFound, s)
      else
        (.created newId,
         { s with products := s.products ++
             [{ id := newId, name := r.name, sku := r.sku,
                description := r.description, categoryId := r.categoryId,
                supplierId := r.supplierId, price := r.price,
                quantity := r.quantity,
                lowStockThreshold := r.lowStockThreshold, isActive := true }] })

/-- DELETE /products/:id: UPDATE products SET is_active = false WHERE
id = $1 AND is_active = true; 404 when no row matched. -/
def softDeleteProduct (s : InvState) (pid : Nat) : ProductResult × InvState :=
  match findActiveProduct s.products pid with
  | none => (.productNotFound, s)
  | some _ =>
    (.deleted pid,
     { s with products := s.products.map (fun p =>
         if p.id == pid && p.isActive then { p with isActive := false } else p) })

/-- GET /products/:id: SELECT ... WHERE id = $1 AND is_active = true; none
models the 404 PRODUCT_NOT_FOUND response. -/
def getProductById (s : InvState) (pid : Nat) : Option Product :=
  findActiveProduct s.products pid

/-- Query parameters of GET /products. -/
structure ListReq where
  page : Nat
  limit : Nat
  search : Option String
  category : Option Nat
  minPrice : Option Int
  maxPrice : Option Int
  inStock : Option Bool
  deriving Repr, DecidableEq

/-- The WHERE clause of GET /products applied to one row: is_active = true
plus the optional filters (ilike models the SQL ILIKE operator against the
%search% pattern). -/
def matchesList (ilike : String → String → Bool) (req : ListReq) (p : Product) : Bool :=
  p.isActive &&
  (match req.search with
   | none => true
   | some s => ilike p.name s || ilike p.sku s) &&
  (match req.category with
   | none => true
   | some c => p.categoryId == c) &&
  (match req.minPrice with
   | none => true
   | some m => decide (m ≤ p.price)) &&
  (match req.maxPrice with
   | none => true
   | some m => decide (p.price ≤ m)) &&
  (match req.inStock with
   | none => true
   | some b => if b then decide (0 < p.quantity) else decide (p.quantity = 0))

/-- The pagination object of the GET /products response. -/
structure Pagination where
  page : Nat
  limit : Nat
  total : Nat
  pages : Nat
  deriving Repr, DecidableEq

/-- GET /products: COUNT over the WHERE clause for total, then the page
slice via LIMIT/OFFSET with offset = (page - 1) * limit. -/
def listProducts (ilike : String → String → Bool) (s : InvState) (req : ListReq) :
    List Product × Pagination :=
  let filtered := s.products.filter (matchesList ilike req)
  let total := filtered.length
  ((filtered.drop ((req.page - 1) * req.limit)).take req.limit,
   { page := req.page, limit := req.limit, total := total,
     pages := (total + req.limit - 1) / req.limit })

/-- True when reversing the movement named by PUT /stock/movements/:id
would leave a non-negative intermediate quantity (the condition the route
does not check). Vacuously true when the movement or its product is
missing. -/
def putIntermediateOk (s : InvState) (mid : Nat) : Bool :=
  match s.movements.find? (fun mv => mv.id == mid) with
  | none => true
  | some m =>
    match findProduct s.products m.productId with
    | none => true
    | some p => decide (0 ≤ quantityAfterReversal p m)

/-- delta(m) as the specification words it: +q for an in movement of q, -q
for an out movement of q. This definition follows the specification text,
for comparison against the arithmetic of the handler. -/
def movementDelta (m : StockMovement) : Int :=
  if m.type == "in" then m.quantity else -m.quantity

/-- Applying a movement request directly to a base quantity, as the
specification words it: base + q for type in, base - q for type out. This
definition follows the specification text, for comparison against the
arithmetic of the handler. -/
def applyMovementSpec (base : Int) (r : StockMovementReq) : Int :=
  if r.type == "in" then base + r.quantity else base - r.quantity

/-! ## Shared lemmas -/

/-- A request passing the stock-movement schema has positive quantity. -/
theorem stockMovementSchemaOk_pos {r : StockMovementReq}
    (h : stockMovementSchemaOk r = true) : 0 < r.quantity := by
  unfold stockMovementSchemaOk at h
  simp only [Bool.and_eq_true, decide_eq_true_eq] at h
  exact h.1.1.1.1.1

/-- Setting the quantity of the product a lookup found updates exactly the
quantity field of the found row. -/
theorem findActiveProduct_setProductQuantity (ps : List Product) (pid : Nat) (q : Int)
    (p : Product) (h : findActiveProduct ps pid = some p) :
    findActiveProduct (setProductQuantity ps pid q) pid = some { p with quantity := q } := by
  unfold findActiveProduct at h
  have hp := List.find?_some h
  have hid : (p.id == pid) = true := by
    cases h1 : (p.id == pid) <;> simp [h1] at hp ⊢
  unfold findActiveProduct setProductQuantity
  rw [List.find?_map]
  have hcomp : ((fun x : Product => x.id == pid && x.isActive) ∘
      (fun x : Product => if x.id == pid then { x with quantity := q } else x)) =
      fun x : Product => x.id == pid && x.isActive := by
    funext a
    by_cases h2 : (a.id == pid) = true <;> simp [Function.comp, h2]
  rw [hcomp]
  rw [h]
  simp only [Option.map_some']
  rw [if_pos hid]

/-- Writing a non-negative quantity preserves non-negativity of every row. -/
theorem setProductQuantity_nonneg (ps : List Product) (pid : Nat) (q : Int)
    (hps : ∀ x ∈ ps, 0 ≤ x.quantity) (hq : 0 ≤ q) :
    ∀ x ∈ setProductQuantity ps pid q, 0 ≤ x.quantity := by
  intro x hx
  unfold setProductQuantity at hx
  rw [List.mem_map] at hx
  obtain ⟨a, ha, rfl⟩ := hx
  by_cases h2 : (a.id == pid) = true
  · simp [h2, hq]
  · simp only [h2]
    simp only [Bool.false_eq_true, if_false]
    exact hps a ha

/-- The reversal arithmetic of the handlers agrees with subtracting the
specification's signed delta. -/
theorem quantityAfterReversal_eq_delta (p : Product) (m : StockMovement) :
    quantityAfterReversal p m = p.quantity - movementDelta m := by
  cases hmt : (m.type == "in")
  · simp only [quantityAfterReversal, movementDelta, hmt, Bool.false_eq_true, if_false]
    omega
  · simp only [quantityAfterReversal, movementDelta, hmt, if_true]

/-- After the soft-delete UPDATE, no row with the deleted id passes the
is_active filter. -/
theorem softDeleted_not_active (ps : List Product) (pid : Nat) :
    ∀ q ∈ ps.map (fun p =>
        if p.id == pid && p.isActive then { p with isActive := false } else p),
      ¬(q.id == pid && q.isActive) = true := by
  intro q hq
  rw [List.mem_map] at hq
  obtain ⟨a, ha, rfl⟩ := hq
  by_cases h1 : (a.id == pid && a.isActive) = true
  · rw [if_pos h1]
    simp
  · rw [if_neg h1]
    exact h1

/-- A row matching the GET /products WHERE clause is active. -/
theorem matchesList_active (ilike : String → String → Bool) (req : ListReq)
    (q : Product) (h : matchesList ilike req q = true) : q.isActive = true := by
  unfold matchesList at h
  simp only [Bool.and_eq_true] at h
  exact h.1.1.1.1.1

/-! ## Claim theorems -/

/-- C1: For every active product with current quantity Q and every validated
stock movement request with positive integer quantity q, POST
/stock/products/:id with type in sets the product quantity to Q + q; with
type out and q at most Q it sets the quantity to Q - q; and with type out
and q exceeding Q it is rejected with the 400 INSUFFICIENT_STOCK error and
the quantity stays Q. -/
theorem postStockMovement_in_out_spec (s : InvState) (pid uid mid : Nat)
    (r : StockMovementReq) (p : Product)
    (hval : stockMovementSchemaOk r = true)
    (hfind : findActiveProduct s.products pid = some p) :
    (r.type = "in" →
      postStockMovement s pid r uid mid false =
        (.ok p.quantity (p.quantity + r.quantity),
         { s with
             products := setProductQuantity s.products pid (p.quantity + r.quantity),
             movements := s.movements ++ [mkStockMovement mid pid r uid] }) ∧
      findActiveProduct (postStockMovement s pid r uid mid false).2.products pid =
        some { p with quantity := p.quantity + r.quantity }) ∧
    (r.type = "out" → r.quantity ≤ p.quantity →
      postStockMovement s pid r uid mid false =
        (.ok p.quantity (p.quantity - r.quantity),
         { s with
             products := setProductQuantity s.products pid (p.quantity - r.quantity),
             movements := s.movements ++ [mkStockMovement mid pid r uid] }) ∧
      findActiveProduct (postStockMovement s pid r uid mid false).2.products pid =
        some { p with quantity := p.quantity - r.quantity }) ∧
    (r.type = "out" → p.quantity < r.quantity →
      postStockMovement s pid r uid mid false = (.insufficientStock p.quantity r.quantity, s)) := by
  refine ⟨?_, ?_, ?_⟩
  · intro ht
    have heq : postStockMovement s pid r uid mid false =
        (.ok p.quantity (p.quantity + r.quantity),
         { s with
             products := setProductQuantity s.products pid (p.quantity + r.quantity),
             movements := s.movements ++ [mkStockMovement mid pid r uid] }) := by
      simp [postStockMovement, hval, hfind, ht]
    refine ⟨heq, ?_⟩
    rw [heq]
    exact findActiveProduct_setProductQuantity s.products pid _ p hfind
  · intro ht hge
    have heq : postStockMovement s pid r uid mid false =
        (.ok p.quantity (p.quantity - r.quantity),
         { s with
             products := setProductQuantity s.products pid (p.quantity - r.quantity),
             movements := s.movements ++ [mkStockMovement mid pid r uid] }) := by
      simp [postStockMovement, hval, hfind, ht, not_lt.mpr hge]
    refine ⟨heq, ?_⟩
    rw [heq]
    exact findActiveProduct_setProductQuantity s.products pid _ p hfind
  · intro ht hlt
    simp [postStockMovement, hval, hfind, ht, hlt]

/-- Witness for C1: the specification example, product at quantity 100,
out 30 gives 70, then out 80 is rejected with INSUFFICIENT_STOCK and the
state is unchanged. -/
theorem postStockMovement_in_out_spec_witness :
    (postStockMovement
      { products := [{ id := 1, name := "Widget", sku := "SKU-100", description := "",
                       categoryId := 1, supplierId := 1, price := 10, quantity := 100,
                       lowStockThreshold := 10, isActive := true }],
        movements := [], categories := [1], suppliers := [1] } 1
      { quantity := 30, type := "out", reason := "sale", reference := "", notes := "" }
      7 1 false).1 = .ok 100 70 ∧
    (postStockMovement
      { products := [{ id := 1, name := "Widget", sku := "SKU-100", description := "",
                       categoryId := 1, supplierId := 1, price := 10, quantity := 70,
                       lowStockThreshold := 10, isActive := true }],
        movements := [{ id := 1, productId := 1, quantity := 30, type := "out",
                        reason := "sale", reference := "", notes := "", userId := 7 }],
        categories := [1], suppliers := [1] } 1
      { quantity := 80, type := "out", reason := "sale", reference := "", notes := "" }
      7 2 false) =
      (.insufficientStock 70 80,
       { products := [{ id := 1, name := "Widget", sku := "SKU-100", description := "",
                        categoryId := 1, supplierId := 1, price := 10, quantity := 70,
                        lowStockThreshold := 10, isActive := true }],
         movements := [{ id := 1, productId := 1, quantity := 30, type := "out",
                         reason := "sale", reference := "", notes := "", userId := 7 }],
         categories := [1], suppliers := [1] }) := by
  constructor
  · have h := (postStockMovement_in_out_spec
      { products := [{ id := 1, name := "Widget", sku := "SKU-100", description := "",
                       categoryId := 1, supplierId := 1, price := 10, quantity := 100,
                       lowStockThreshold := 10, isActive := true }],
        movements := [], categories := [1], suppliers := [1] } 1 7 1
      { quantity := 30, type := "out", reason := "sale", reference := "", notes := "" }
      { id := 1, name := "Widget", sku := "SKU-100", description := "",
        categoryId := 1, supplierId := 1, price := 10, quantity := 100,
        lowStockThreshold := 10, isActive := true }
      (by decide) (by decide)).2.1 rfl (by decide)
    rw [h.1]
    rfl
  · have h := (postStockMovement_in_out_spec
      { products := [{ id := 1, name := "Widget", sku := "SKU-100", description := "",
                       categoryId := 1, supplierId := 1, price := 10, quantity := 70,
                       lowStockThreshold := 10, isActive := true }],
        movements := [{ id := 1, productId := 1, quantity := 30, type := "out",
                        reason := "sale", reference := "", notes := "", userId := 7 }],
        categories := [1], suppliers := [1] } 1 7 2
      { quantity := 80, type := "out", reason := "sale", reference := "", notes := "" }
      { id := 1, name := "Widget", sku := "SKU-100", description := "",
        categoryId := 1, supplierId := 1, price := 10, quantity := 70,
        lowStockThreshold := 10, isActive := true }
      (by decide) (by decide)).2.2 rfl (by decide)
    exact h

/-- C2 counterexample: a state reached by an in 100 movement followed by an
out 50 movement has every quantity non-negative, yet editing the in 100
movement down to in 10 via PUT /stock/movements/:id drives the product
quantity to -40, so the non-negativity invariant is not preserved by every
application-layer operation. -/
theorem stock_invariant_counterexample :
    (∀ p ∈ (postStockMovement (postStockMovement
        { products := [{ id := 1, name := "Widget", sku := "SKU-1", description := "",
                         categoryId := 1, supplierId := 1, price := 10, quantity := 0,
                         lowStockThreshold := 10, isActive := true }],
          movements := [], categories := [1], suppliers := [1] }
        1 { quantity := 100, type := "in", reason := "restock", reference := "", notes := "" }
        7 1 false).2
        1 { quantity := 50, type := "out", reason := "sale", reference := "", notes := "" }
        7 2 false).2.products, 0 ≤ p.quantity) ∧
    Reachable (postStockMovement (postStockMovement
        { products := [{ id := 1, name := "Widget", sku := "SKU-1", description := "",
                         categoryId := 1, supplierId := 1, price := 10, quantity := 0,
                         lowStockThreshold := 10, isActive := true }],
          movements := [], categories := [1], suppliers := [1] }
        1 { quantity := 100, type := "in", reason := "restock", reference := "", notes := "" }
        7 1 false).2
        1 { quantity := 50, type := "out", reason := "sale", reference := "", notes := "" }
        7 2 false).2 ∧
    ∃ p ∈ (putStockMovement (postStockMovement (postStockMovement
        { products := [{ id := 1, name := "Widget", sku := "SKU-1", description := "",
                         categoryId := 1, supplierId := 1, price := 10, quantity := 0,
                         lowStockThreshold := 10, isActive := true }],
          movements := [], categories := [1], suppliers := [1] }
        1 { quantity := 100, type := "in", reason := "restock", reference := "", notes := "" }
        7 1 false).2
        1 { quantity := 50, type := "out", reason := "sale", reference := "", notes := "" }
        7 2 false).2
        1 { quantity := 10, type := "in", reason := "edit", reference := "", notes := "" }).2.products,
      p.quantity < 0 := by
  refine ⟨by decide, ?_, by decide⟩
  exact Reachable.postStep _ 1 _ 7 2 (Reachable.postStep _ 1 _ 7 1
    (Reachable.init _ rfl (by decide)))

/-- C2 (amended): starting from a state with all product quantities
non-negative, POST /stock/products/:id and DELETE /stock/movements/:id
leave every quantity non-negative, and PUT /stock/movements/:id does so
provided the quantity after reversing the edited movement is non-negative
(a condition the route itself never checks). -/
theorem stockRoutes_preserve_nonneg (s : InvState) (pid uid mid mid2 mid3 : Nat)
    (wf : Bool) (r r3 : StockMovementReq)
    (hnn : ∀ p ∈ s.products, 0 ≤ p.quantity) :
    (∀ p ∈ (postStockMovement s pid r uid mid wf).2.products, 0 ≤ p.quantity) ∧
    (∀ p ∈ (deleteStockMovement s mid2).2.products, 0 ≤ p.quantity) ∧
    (putIntermediateOk s mid3 = true →
      ∀ p ∈ (putStockMovement s mid3 r3).2.products, 0 ≤ p.quantity) := by
  refine ⟨?_, ?_, ?_⟩
  · cases hv : stockMovementSchemaOk r with
    | false => simpa [postStockMovement, hv] using hnn
    | true =>
      cases hf : findActiveProduct s.products pid with
      | none => simpa [postStockMovement, hv, hf] using hnn
      | some p =>
        have hq : 0 < r.quantity := stockMovementSchemaOk_pos hv
        have hpm : p ∈ s.products := by
          unfold findActiveProduct at hf
          exact List.mem_of_find?_eq_some hf
        have hp0 : 0 ≤ p.quantity := hnn p hpm
        cases ht : (r.type == "in") with
        | true =>
          cases wf with
          | true => simpa [postStockMovement, hv, hf, ht] using hnn
          | false =>
            simp only [postStockMovement, hv, hf, ht]
            simp only [Bool.not_true, if_false, if_true]
            exact setProductQuantity_nonneg s.products pid _ hnn (by omega)
        | false =>
          by_cases hlt : p.quantity < r.quantity
          · simpa [postStockMovement, hv, hf, ht, hlt] using hnn
          · cases wf with
            | true => simpa [postStockMovement, hv, hf, ht, hlt] using hnn
            | false =>
              simp only [postStockMovement, hv, hf, ht, hlt]
              simp only [Bool.not_true, if_false, if_true]
              exact setProductQuantity_nonneg s.products pid _ hnn (by omega)
  · cases hm : s.movements.find? (fun mv => mv.id == mid2) with
    | none => simpa [deleteStockMovement, hm] using hnn
    | some m =>
      cases hp : findProduct s.products m.productId with
      | none => simpa [deleteStockMovement, hm, hp] using hnn
      | some p =>
        cases hmt : (m.type == "in") with
        | true =>
          by_cases hneg : p.quantity - m.quantity < 0
          · simpa [deleteStockMovement, hm, hp, hmt, hneg] using hnn
          · simp only [deleteStockMovement, hm, hp, hmt, if_true, hneg, if_false]
            exact setProductQuantity_nonneg s.products m.productId _ hnn (by omega)
        | false =>
          by_cases hneg : p.quantity + m.quantity < 0
          · simpa [deleteStockMovement, hm, hp, hmt, hneg] using hnn
          · simp only [deleteStockMovement, hm, hp, hmt, Bool.false_eq_true, if_false]
            rw [if_neg hneg]
            exact setProductQuantity_nonneg s.products m.productId
              (p.quantity + m.quantity) hnn (by omega)
  · intro hio
    cases hv : stockMovementSchemaOk r3 with
    | false => simpa [putStockMovement, hv] using hnn
    | true =>
      cases hm : s.movements.find? (fun mv => mv.id == mid3) with
      | none => simpa [putStockMovement, hm, hv] using hnn
      | some m =>
        cases hp : findProduct s.products m.productId with
        | none => simpa [putStockMovement, hm, hp, hv] using hnn
        | some p =>
          have hq : 0 < r3.quantity := stockMovementSchemaOk_pos hv
          have hqar : 0 ≤ quantityAfterReversal p m := by
            simp only [putIntermediateOk, hm, hp, decide_eq_true_eq] at hio
            exact hio
          cases ht : (r3.type == "in") with
          | true =>
            simp only [putStockMovement, hv, hm, hp, ht]
            simp only [Bool.not_true, if_false, if_true, putWrite]
            exact setProductQuantity_nonneg s.products m.productId _ hnn (by omega)
          | false =>
            by_cases hlt : quantityAfterReversal p m < r3.quantity
            · simpa [putStockMovement, hv, hm, hp, ht, hlt] using hnn
            · simp only [putStockMovement, hv, hm, hp, ht, hlt]
              simp only [Bool.not_true, if_false, Bool.false_eq_true, putWrite]
              exact setProductQuantity_nonneg s.products m.productId _ hnn (by omega)

/-- Witness for the amended C2 at a concrete state: one product at
quantity 5 with an in 3 movement; POST of in 2, DELETE of the movement and
a guarded PUT of out 1 all keep quantities non-negative. -/
theorem stockRoutes_preserve_nonneg_witness :
    (∀ p ∈ (postStockMovement
        { products := [{ id := 1, name := "Widget", sku := "SKU-1", description := "",
                         categoryId := 1, supplierId := 1, price := 10, quantity := 5,
                         lowStockThreshold := 10, isActive := true }],
          movements := [{ id := 1, productId := 1, quantity := 3, type := "in",
                          reason := "restock", reference := "", notes := "", userId := 7 }],
          categories := [1], suppliers := [1] }
        1 { quantity := 2, type := "in", reason := "restock", reference := "", notes := "" }
        7 2 false).2.products, 0 ≤ p.quantity) ∧
    (∀ p ∈ (deleteStockMovement
        { products := [{ id := 1, name := "Widget", sku := "SKU-1", description := "",
                         categoryId := 1, supplierId := 1, price := 10, quantity := 5,
                         lowStockThreshold := 10, isActive := true }],
          movements := [{ id := 1, productId := 1, quantity := 3, type := "in",
                          reason := "restock", reference := "", notes := "", userId := 7 }],
          categories := [1], suppliers := [1] } 1).2.products, 0 ≤ p.quantity) ∧
    (putIntermediateOk
        { products := [{ id := 1, name := "Widget", sku := "SKU-1", description := "",
                         categoryId := 1, supplierId := 1, price := 10, quantity := 5,
                         lowStockThreshold := 10, isActive := true }],
          movements := [{ id := 1, productId := 1, quantity := 3, type := "in",
                          reason := "restock", reference := "", notes := "", userId := 7 }],
          categories := [1], suppliers := [1] } 1 = true →
      ∀ p ∈ (putStockMovement
        { products := [{ id := 1, name := "Widget", sku := "SKU-1", description := "",
                         categoryId := 1, supplierId := 1, price := 10, quantity := 5,
                         lowStockThreshold := 10, isActive := true }],
          movements := [{ id := 1, productId := 1, quantity := 3, type := "in",
                          reason := "restock", reference := "", notes := "", userId := 7 }],
          categories := [1], suppliers := [1] }
        1 { quantity := 1, type := "out", reason := "shrink", reference := "", notes := "" }).2.products,
        0 ≤ p.quantity) :=
  stockRoutes_preserve_nonneg
    { products := [{ id := 1, name := "Widget", sku := "SKU-1", description := "",
                     categoryId := 1, supplierId := 1, price := 10, quantity := 5,
                     lowStockThreshold := 10, isActive := true }],
      movements := [{ id := 1, productId := 1, quantity := 3, type := "in",
                      reason := "restock", reference := "", notes := "", userId := 7 }],
      categories := [1], suppliers := [1] }
    1 7 2 1 1 false
    { quantity := 2, type := "in", reason := "restock", reference := "", notes := "" }
    { quantity := 1, type := "out", reason := "shrink", reference := "", notes := "" }
    (by decide)

/-- C3: whenever PUT /stock/movements/:id accepts a replacement movement,
the final quantity it produces (reverse the stored movement, then apply the
new one) equals applying the new movement directly to the pre-edit base
state Q - delta(m), and that final quantity is what is persisted on the
product row. -/
theorem putStockMovement_reverse_reapply (s : InvState) (mid : Nat)
    (r : StockMovementReq) (m : StockMovement) (p : Product) (prev fin : Int)
    (hm : s.movements.find? (fun mv => mv.id == mid) = some m)
    (hp : findProduct s.products m.productId = some p)
    (hok : (putStockMovement s mid r).1 = .ok prev fin) :
    fin = applyMovementSpec (p.quantity - movementDelta m) r ∧
    (putStockMovement s mid r).2.products =
      setProductQuantity s.products m.productId fin := by
  cases hv : stockMovementSchemaOk r with
  | false => simp [putStockMovement, hv] at hok
  | true =>
    cases ht : (r.type == "in") with
    | true =>
      have heq : putStockMovement s mid r =
          (.ok p.quantity (quantityAfterReversal p m + r.quantity),
           putWrite s mid r m (quantityAfterReversal p m + r.quantity)) := by
        simp [putStockMovement, hv, hm, hp, ht]
      rw [heq] at hok
      simp only at hok
      injection hok with h1 h2
      subst h2
      constructor
      · rw [quantityAfterReversal_eq_delta]
        simp [applyMovementSpec, ht]
      · rw [heq]
        rfl
    | false =>
      by_cases hlt : quantityAfterReversal p m < r.quantity
      · simp [putStockMovement, hv, hm, hp, ht, hlt] at hok
      · have heq : putStockMovement s mid r =
            (.ok p.quantity (quantityAfterReversal p m - r.quantity),
             putWrite s mid r m (quantityAfterReversal p m - r.quantity)) := by
          simp [putStockMovement, hv, hm, hp, ht, hlt]
        rw [heq] at hok
        simp only at hok
        injection hok with h1 h2
        subst h2
        constructor
        · rw [quantityAfterReversal_eq_delta]
          simp [applyMovementSpec, ht]
        · rw [heq]
          rfl

/-- Witness for C3: product at quantity 5 with a stored in 3 movement,
edited to out 2; the accepted final quantity 0 equals the out 2 movement
applied to the base state 5 - 3 = 2, and it is what gets persisted. -/
theorem putStockMovement_reverse_reapply_witness :
    (0 : Int) = applyMovementSpec
      ((5 : Int) - movementDelta
        { id := 1, productId := 1, quantity := 3, type := "in",
          reason := "restock", reference := "", notes := "", userId := 7 })
      { quantity := 2, type := "out", reason := "shrink", reference := "", notes := "" } ∧
    (putStockMovement
      { products := [{ id := 1, name := "Widget", sku := "SKU-1", description := "",
                       categoryId := 1, supplierId := 1, price := 10, quantity := 5,
                       lowStockThreshold := 10, isActive := true }],
        movements := [{ id := 1, productId := 1, quantity := 3, type := "in",
                        reason := "restock", reference := "", notes := "", userId := 7 }],
        categories := [1], suppliers := [1] } 1
      { quantity := 2, type := "out", reason := "shrink", reference := "", notes := "" }).2.products =
      setProductQuantity
        [{ id := 1, name := "Widget", sku := "SKU-1", description := "",
           categoryId := 1, supplierId := 1, price := 10, quantity := 5,
           lowStockThreshold := 10, isActive := true }] 1 0 := by
  have h := putStockMovement_reverse_reapply
    { products := [{ id := 1, name := "Widget", sku := "SKU-1", description := "",
                     categoryId := 1, supplierId := 1, price := 10, quantity := 5,
                     lowStockThreshold := 10, isActive := true }],
      movements := [{ id := 1, productId := 1, quantity := 3, type := "in",
                      reason := "restock", reference := "", notes := "", userId := 7 }],
      categories := [1], suppliers := [1] } 1
    { quantity := 2, type := "out", reason := "shrink", reference := "", notes := "" }
    { id := 1, productId := 1, quantity := 3, type := "in",
      reason := "restock", reference := "", notes := "", userId := 7 }
    { id := 1, name := "Widget", sku := "SKU-1", description := "",
      categoryId := 1, supplierId := 1, price := 10, quantity := 5,
      lowStockThreshold := 10, isActive := true }
    5 0 (by decide) (by decide) (by decide)
  exact ⟨h.1, h.2⟩

/-- C4 counterexample: product at quantity 50 with a stored in 100
movement; PUT of in 10 is accepted (the intermediate quantity -50 is never
checked) and the negative final quantity -40 is persisted, contradicting
the claim that a negative intermediate or final quantity is rejected with
nothing written. -/
theorem putStockMovement_guard_counterexample :
    (putStockMovement
      { products := [{ id := 1, name := "Widget", sku := "SKU-1", description := "",
                       categoryId := 1, supplierId := 1, price := 10, quantity := 50,
                       lowStockThreshold := 10, isActive := true }],
        movements := [{ id := 1, productId := 1, quantity := 100, type := "in",
                        reason := "restock", reference := "", notes := "", userId := 7 }],
        categories := [1], suppliers := [1] } 1
      { quantity := 10, type := "in", reason := "edit", reference := "", notes := "" }).1 =
      .ok 50 (-40) ∧
    quantityAfterReversal
      { id := 1, name := "Widget", sku := "SKU-1", description := "",
        categoryId := 1, supplierId := 1, price := 10, quantity := 50,
        lowStockThreshold := 10, isActive := true }
      { id := 1, productId := 1, quantity := 100, type := "in",
        reason := "restock", reference := "", notes := "", userId := 7 } = -50 ∧
    ∃ p ∈ (putStockMovement
      { products := [{ id := 1, name := "Widget", sku := "SKU-1", description := "",
                       categoryId := 1, supplierId := 1, price := 10, quantity := 50,
                       lowStockThreshold := 10, isActive := true }],
        movements := [{ id := 1, productId := 1, quantity := 100, type := "in",
                        reason := "restock", reference := "", notes := "", userId := 7 }],
        categories := [1], suppliers := [1] } 1
      { quantity := 10, type := "in", reason := "edit", reference := "", notes := "" }).2.products,
      p.quantity = -40 := by
  decide

/-- C4 (amended): past validation and the movement lookup, PUT
/stock/movements/:id rejects exactly when the new movement is of type out
and the post-reversal quantity is below its quantity (writing nothing);
otherwise it persists the rewritten movement and the final quantity, with
no check of the intermediate quantity, so a new in movement is persisted
even from a negative intermediate or to a negative final quantity. -/
theorem putStockMovement_spec (s : InvState) (mid : Nat) (r : StockMovementReq)
    (m : StockMovement) (p : Product)
    (hval : stockMovementSchemaOk r = true)
    (hm : s.movements.find? (fun mv => mv.id == mid) = some m)
    (hp : findProduct s.products m.productId = some p) :
    (r.type = "out" → quantityAfterReversal p m < r.quantity →
      putStockMovement s mid r =
        (.insufficientStock (quantityAfterReversal p m) r.quantity, s)) ∧
    (r.type = "in" →
      putStockMovement s mid r =
        (.ok p.quantity (quantityAfterReversal p m + r.quantity),
         putWrite s mid r m (quantityAfterReversal p m + r.quantity))) ∧
    (r.type = "out" → r.quantity ≤ quantityAfterReversal p m →
      putStockMovement s mid r =
        (.ok p.quantity (quantityAfterReversal p m - r.quantity),
         putWrite s mid r m (quantityAfterReversal p m - r.quantity))) := by
  refine ⟨?_, ?_, ?_⟩
  · intro ht hlt
    simp [putStockMovement, hval, hm, hp, ht, hlt]
  · intro ht
    simp [putStockMovement, hval, hm, hp, ht]
  · intro ht hge
    simp [putStockMovement, hval, hm, hp, ht, not_lt.mpr hge]

/-- Witness for the amended C4: product at quantity 5 with a stored in 3
movement; PUT of out 9 is rejected with INSUFFICIENT_STOCK computed from
the post-reversal quantity 2, and the state is unchanged. -/
theorem putStockMovement_spec_witness :
    ((("out" : String) = "out" → quantityAfterReversal
        { id := 1, name := "Widget", sku := "SKU-1", description := "",
          categoryId := 1, supplierId := 1, price := 10, quantity := 5,
          lowStockThreshold := 10, isActive := true }
        { id := 1, productId := 1, quantity := 3, type := "in",
          reason := "restock", reference := "", notes := "", userId := 7 } < 9 →
      putStockMovement
        { products := [{ id := 1, name := "Widget", sku := "SKU-1", description := "",
                         categoryId := 1, supplierId := 1, price := 10, quantity := 5,
                         lowStockThreshold := 10, isActive := true }],
          movements := [{ id := 1, productId := 1, quantity := 3, type := "in",
                          reason := "restock", reference := "", notes := "", userId := 7 }],
          categories := [1], suppliers := [1] } 1
        { quantity := 9, type := "out", reason := "shrink", reference := "", notes := "" } =
        (.insufficientStock (quantityAfterReversal
          { id := 1, name := "Widget", sku := "SKU-1", description := "",
            categoryId := 1, supplierId := 1, price := 10, quantity := 5,
            lowStockThreshold := 10, isActive := true }
          { id := 1, productId := 1, quantity := 3, type := "in",
            reason := "restock", reference := "", notes := "", userId := 7 }) 9,
         { products := [{ id := 1, name := "Widget", sku := "SKU-1", description := "",
                          categoryId := 1, supplierId := 1, price := 10, quantity := 5,
                          lowStockThreshold := 10, isActive := true }],
           movements := [{ id := 1, productId := 1, quantity := 3, type := "in",
                           reason := "restock", reference := "", notes := "", userId := 7 }],
           categories := [1], suppliers := [1] })) ∧ True) := by
  have h := putStockMovement_spec
    { products := [{ id := 1, name := "Widget", sku := "SKU-1", description := "",
                     categoryId := 1, supplierId := 1, price := 10, quantity := 5,
                     lowStockThreshold := 10, isActive := true }],
      movements := [{ id := 1, productId := 1, quantity := 3, type := "in",
                      reason := "restock", reference := "", notes := "", userId := 7 }],
      categories := [1], suppliers := [1] } 1
    { quantity := 9, type := "out", reason := "shrink", reference := "", notes := "" }
    { id := 1, productId := 1, quantity := 3, type := "in",
      reason := "restock", reference := "", notes := "", userId := 7 }
    { id := 1, name := "Widget", sku := "SKU-1", description := "",
      categoryId := 1, supplierId := 1, price := 10, quantity := 5,
      lowStockThreshold := 10, isActive := true }
    (by decide) (by decide) (by decide)
  exact ⟨h.1, trivial⟩

/-- C5: DELETE /stock/movements/:id on a movement of recorded quantity q
over a product at quantity Q is rejected with the 400 NEGATIVE_STOCK error
and leaves the state unchanged when the movement is of type in and
Q - q < 0; otherwise it removes the movement row and sets the product
quantity to Q - q (in) or Q + q (out). -/
theorem deleteStockMovement_spec (s : InvState) (mid : Nat)
    (m : StockMovement) (p : Product)
    (hm : s.movements.find? (fun mv => mv.id == mid) = some m)
    (hp : findProduct s.products m.productId = some p)
    (hq : 0 ≤ p.quantity) (hmq : 0 ≤ m.quantity) :
    (m.type = "in" → p.quantity - m.quantity < 0 →
      deleteStockMovement s mid = (.negativeStock, s)) ∧
    (m.type = "in" → 0 ≤ p.quantity - m.quantity →
      deleteStockMovement s mid =
        (.ok p.quantity (p.quantity - m.quantity),
         { s with
             products := setProductQuantity s.products m.productId (p.quantity - m.quantity),
             movements := s.movements.filter (fun mv => !(mv.id == mid)) })) ∧
    (m.type = "out" →
      deleteStockMovement s mid =
        (.ok p.quantity (p.quantity + m.quantity),
         { s with
             products := setProductQuantity s.products m.productId (p.quantity + m.quantity),
             movements := s.movements.filter (fun mv => !(mv.id == mid)) })) := by
  refine ⟨?_, ?_, ?_⟩
  · intro ht hlt
    simp [deleteStockMovement, hm, hp, ht, hlt]
  · intro ht hge
    simp [deleteStockMovement, hm, hp, ht, not_lt.mpr hge]
  · intro ht
    have hnn : ¬(p.quantity + m.quantity < 0) := by omega
    simp [deleteStockMovement, hm, hp, ht, hnn]

/-- Witness for C5: deleting an out 3 movement over a product at quantity 5
restores the quantity to 8 and removes the movement row. -/
theorem deleteStockMovement_spec_witness :
    ((("out" : String) = "in" → (5 : Int) - 3 < 0 → True) ∧
     (deleteStockMovement
       { products := [{ id := 1, name := "Widget", sku := "SKU-1", description := "",
                        categoryId := 1, supplierId := 1, price := 10, quantity := 5,
                        lowStockThreshold := 10, isActive := true }],
         movements := [{ id := 1, productId := 1, quantity := 3, type := "out",
                         reason := "sale", reference := "", notes := "", userId := 7 }],
         categories := [1], suppliers := [1] } 1) =
       (.ok 5 8,
        { products := setProductQuantity
            [{ id := 1, name := "Widget", sku := "SKU-1", description := "",
               categoryId := 1, supplierId := 1, price := 10, quantity := 5,
               lowStockThreshold := 10, isActive := true }] 1 8,
          movements := [],
          categories := [1], suppliers := [1] })) := by
  have h := deleteStockMovement_spec
    { products := [{ id := 1, name := "Widget", sku := "SKU-1", description := "",
                     categoryId := 1, supplierId := 1, price := 10, quantity := 5,
                     lowStockThreshold := 10, isActive := true }],
      movements := [{ id := 1, productId := 1, quantity := 3, type := "out",
                      reason := "sale", reference := "", notes := "", userId := 7 }],
      categories := [1], suppliers := [1] } 1
    { id := 1, productId := 1, quantity := 3, type := "out",
      reason := "sale", reference := "", notes := "", userId := 7 }
    { id := 1, name := "Widget", sku := "SKU-1", description := "",
      categoryId := 1, supplierId := 1, price := 10, quantity := 5,
      lowStockThreshold := 10, isActive := true }
    (by decide) (by decide) (by decide) (by decide)
  refine ⟨fun _ _ => trivial, ?_⟩
  have h2 := h.2.2 rfl
  exact h2

/-- C6: POST /stock/products/:id is atomic: either it returns the success
payload and the new state carries exactly the product-quantity UPDATE and
one appended stock_movements row, or it returns a non-success result
(validation error, product not found, insufficient stock, or a write
failure rolled back) and the state is exactly the pre-request state. -/
theorem postStockMovement_atomic (s : InvState) (pid : Nat) (r : StockMovementReq)
    (uid mid : Nat) (wf : Bool) :
    (∃ prev nq, (postStockMovement s pid r uid mid wf).1 = .ok prev nq ∧
       (postStockMovement s pid r uid mid wf).2 =
         { s with products := setProductQuantity s.products pid nq,
                  movements := s.movements ++ [mkStockMovement mid pid r uid] }) ∨
    ((∀ prev nq, (postStockMovement s pid r uid mid wf).1 ≠ .ok prev nq) ∧
       (postStockMovement s pid r uid mid wf).2 = s) := by
  cases hv : stockMovementSchemaOk r with
  | false => right; simp [postStockMovement, hv]
  | true =>
    cases hf : findActiveProduct s.products pid with
    | none => right; simp [postStockMovement, hv, hf]
    | some p =>
      cases ht : (r.type == "in") with
      | true =>
        cases wf with
        | true => right; simp [postStockMovement, hv, hf, ht]
        | false =>
          left
          exact ⟨p.quantity, p.quantity + r.quantity,
            by simp [postStockMovement, hv, hf, ht],
            by simp [postStockMovement, hv, hf, ht]⟩
      | false =>
        by_cases hlt : p.quantity < r.quantity
        · right; simp [postStockMovement, hv, hf, ht, hlt]
        · cases wf with
          | true => right; simp [postStockMovement, hv, hf, ht, hlt]
          | false =>
            left
            exact ⟨p.quantity, p.quantity - r.quantity,
              by simp [postStockMovement, hv, hf, ht, hlt],
              by simp [postStockMovement, hv, hf, ht, hlt]⟩

/-- C7 counterexample: with exactly one active admin user, PUT
/auth/users/:id with body status inactive succeeds and sets that admin's
status to inactive, contradicting the claim that every operation
deactivating the last active admin is rejected with LAST_ADMIN. -/
theorem lastAdmin_put_counterexample :
    countActiveAdmins [{ id := 1, name := "Root", email := "root@inv.local",
                         passwordHash := "h0", role := "admin", status := "active" }] = 1 ∧
    (putUser (fun _ => true) (fun h => h)
      [{ id := 1, name := "Root", email := "root@inv.local",
         passwordHash := "h0", role := "admin", status := "active" }] 1
      { name := none, email := none, password := none, role := none,
        status := some "inactive" }).1 =
      .ok { id := 1, name := "Root", email := "root@inv.local",
            passwordHash := "h0", role := "admin", status := "inactive" } ∧
    ∃ u ∈ (putUser (fun _ => true) (fun h => h)
      [{ id := 1, name := "Root", email := "root@inv.local",
         passwordHash := "h0", role := "admin", status := "active" }] 1
      { name := none, email := none, password := none, role := none,
        status := some "inactive" }).2, u.id = 1 ∧ u.status = "inactive" := by
  decide

/-- C7 (amended): when the target of the operation is an admin and at most
one active admin exists, DELETE /auth/users/:id and PATCH
/auth/users/:id/status with status inactive are rejected with the 400
LAST_ADMIN error, leaving the users unchanged; PUT /auth/users/:id with a
validated body carrying status inactive (and no e-mail change) has no
last-admin guard: it succeeds and persists the inactive status. -/
theorem lastAdmin_guard (users : List User) (id : Nat) (u : User)
    (hfind : users.find? (fun v => v.id == id) = some u)
    (hrole : u.role = "admin") (hcount : countActiveAdmins users = 1) :
    deleteUser users id = (.lastAdmin, users) ∧
    patchUserStatus users id "inactive" = (.lastAdmin, users) ∧
    ∀ (emailOk : String → Bool) (hashPw : String → String) (upd : UserUpdate),
      updateUserSchemaOk emailOk upd = true → upd.status = some "inactive" →
      upd.email = none →
      putUser emailOk hashPw users id upd =
        (.ok (applyUserUpdate hashPw u upd),
         users.map (fun v => if v.id == id then applyUserUpdate hashPw v upd else v)) ∧
      (applyUserUpdate hashPw u upd).status = "inactive" := by
  refine ⟨?_, ?_, ?_⟩
  · simp [deleteUser, hfind, hrole, hcount]
  · simp [patchUserStatus, hfind, hrole, hcount]
  · intro emailOk hashPw upd hval hst hem
    constructor
    · simp [putUser, hval, hfind, hem, hst]
    · simp [applyUserUpdate, hst]

/-- Witness for the amended C7 on a one-admin user table. -/
theorem lastAdmin_guard_witness :
    (deleteUser [{ id := 1, name := "Root", email := "root@inv.local",
                   passwordHash := "h0", role := "admin", status := "active" }] 1 =
      (.lastAdmin, [{ id := 1, name := "Root", email := "root@inv.local",
                      passwordHash := "h0", role := "admin", status := "active" }])) ∧
    (patchUserStatus [{ id := 1, name := "Root", email := "root@inv.local",
                        passwordHash := "h0", role := "admin", status := "active" }] 1
      "inactive" =
      (.lastAdmin, [{ id := 1, name := "Root", email := "root@inv.local",
                      passwordHash := "h0", role := "admin", status := "active" }])) ∧
    ∀ (emailOk : String → Bool) (hashPw : String → String) (upd : UserUpdate),
      updateUserSchemaOk emailOk upd = true → upd.status = some "inactive" →
      upd.email = none →
      putUser emailOk hashPw
        [{ id := 1, name := "Root", email := "root@inv.local",
           passwordHash := "h0", role := "admin", status := "active" }] 1 upd =
        (.ok (applyUserUpdate hashPw
          { id := 1, name := "Root", email := "root@inv.local",
            passwordHash := "h0", role := "admin", status := "active" } upd),
         [{ id := 1, name := "Root", email := "root@inv.local",
            passwordHash := "h0", role := "admin", status := "active" }].map
           (fun v => if v.id == 1 then applyUserUpdate hashPw v upd else v)) ∧
      (applyUserUpdate hashPw
        { id := 1, name := "Root", email := "root@inv.local",
          passwordHash := "h0", role := "admin", status := "active" } upd).status =
        "inactive" :=
  lastAdmin_guard
    [{ id := 1, name := "Root", email := "root@inv.local",
       passwordHash := "h0", role := "admin", status := "active" }] 1
    { id := 1, name := "Root", email := "root@inv.local",
      passwordHash := "h0", role := "admin", status := "active" }
    (by decide) rfl (by decide)

/-- C8 counterexample: a wrong password shorter than six characters is
stopped by the Joi login schema, so POST /auth/login returns the 400
VALIDATION_ERROR response instead of the 401 INVALID_CREDENTIALS the claim
requires for every wrong password. -/
theorem login_short_wrong_password_counterexample :
    "bad" ≠ "secret1" ∧
    login (fun e => e == "root@inv.local") (fun pw h => pw == h) (fun _ _ => "tok")
      [{ id := 1, name := "Root", email := "root@inv.local",
         passwordHash := "secret1", role := "admin", status := "active" }]
      "root@inv.local" "bad" = .validationError ∧
    login (fun e => e == "root@inv.local") (fun pw h => pw == h) (fun _ _ => "tok")
      [{ id := 1, name := "Root", email := "root@inv.local",
         passwordHash := "secret1", role := "admin", status := "active" }]
      "root@inv.local" "bad" ≠ .invalidCredentials := by
  refine ⟨by decide, by rfl, by decide⟩

/-- C8 (amended): for a registered user found by e-mail, POST /auth/login
with any password of at least six characters returns the success payload
with the signed token and the id, name, e-mail and role of the user when
the bcrypt comparison accepts it, and the 401 INVALID_CREDENTIALS result
(carrying no token) when the comparison rejects it. -/
theorem login_spec (emailOk : String → Bool) (checkPw : String → String → Bool)
    (signToken : Nat → String → String) (users : List User) (email : String)
    (u : User)
    (hfind : users.find? (fun v => v.email == email) = some u)
    (hemail : emailOk email = true) :
    (∀ pw, 6 ≤ pw.length → checkPw pw u.passwordHash = true →
       login emailOk checkPw signToken users email pw =
         .success (signToken u.id u.email) u.id u.name u.email u.role) ∧
    (∀ pw, 6 ≤ pw.length → checkPw pw u.passwordHash = false →
       login emailOk checkPw signToken users email pw = .invalidCredentials) := by
  constructor
  · intro pw hlen hok
    simp [login, hemail, hfind, hok, hlen]
  · intro pw hlen hbad
    simp [login, hemail, hfind, hbad, hlen]

/-- Witness for the amended C8 on a one-user table with the comparison
instantiated to string equality against the stored hash. -/
theorem login_spec_witness :
    (∀ pw : String, 6 ≤ pw.length → (pw == "secret1") = true →
       login (fun e => e == "root@inv.local") (fun pw h => pw == h) (fun _ _ => "tok")
         [{ id := 1, name := "Root", email := "root@inv.local",
            passwordHash := "secret1", role := "admin", status := "active" }]
         "root@inv.local" pw = .success "tok" 1 "Root" "root@inv.local" "admin") ∧
    (∀ pw : String, 6 ≤ pw.length → (pw == "secret1") = false →
       login (fun e => e == "root@inv.local") (fun pw h => pw == h) (fun _ _ => "tok")
         [{ id := 1, name := "Root", email := "root@inv.local",
            passwordHash := "secret1", role := "admin", status := "active" }]
         "root@inv.local" pw = .invalidCredentials) :=
  login_spec (fun e => e == "root@inv.local") (fun pw h => pw == h) (fun _ _ => "tok")
    [{ id := 1, name := "Root", email := "root@inv.local",
       passwordHash := "secret1", role := "admin", status := "active" }]
    "root@inv.local"
    { id := 1, name := "Root", email := "root@inv.local",
      passwordHash := "secret1", role := "admin", status := "active" }
    (by decide) (by decide)

/-- C9: POST /products with a validated body whose sku equals the sku of an
existing product row is rejected with the 409 SKU_EXISTS error and the
state is returned unchanged: no row is inserted and the existing row is
untouched. -/
theorem createProduct_duplicate_sku (s : InvState) (r : ProductReq) (nid : Nat)
    (p : Product) (hval : productSchemaOk r = true)
    (hmem : p ∈ s.products) (hsku : p.sku = r.sku) :
    createProduct s r nid = (.skuExists, s) := by
  have hsome : (s.products.find? (fun q => q.sku == r.sku)).isSome := by
    rw [List.find?_isSome]
    exact ⟨p, hmem, by simp [hsku]⟩
  obtain ⟨x, hx⟩ := Option.isSome_iff_exists.mp hsome
  simp [createProduct, hval, hx]

/-- Witness for C9: creating a second product with the sku SKU-100 of an
existing row is rejected with SKU_EXISTS and the state is unchanged. -/
theorem createProduct_duplicate_sku_witness :
    createProduct
      { products := [{ id := 1, name := "Widget", sku := "SKU-100", description := "",
                       categoryId := 1, supplierId := 1, price := 10, quantity := 5,
                       lowStockThreshold := 10, isActive := true }],
        movements := [], categories := [1], suppliers := [1] }
      { name := "Widget Clone", description := "", sku := "SKU-100", categoryId := 1,
        price := 12, quantity := 3, lowStockThreshold := 10, supplierId := 1 } 2 =
      (.skuExists,
       { products := [{ id := 1, name := "Widget", sku := "SKU-100", description := "",
                        categoryId := 1, supplierId := 1, price := 10, quantity := 5,
                        lowStockThreshold := 10, isActive := true }],
         movements := [], categories := [1], suppliers := [1] }) :=
  createProduct_duplicate_sku
    { products := [{ id := 1, name := "Widget", sku := "SKU-100", description := "",
                     categoryId := 1, supplierId := 1, price := 10, quantity := 5,
                     lowStockThreshold := 10, isActive := true }],
      movements := [], categories := [1], suppliers := [1] }
    { name := "Widget Clone", description := "", sku := "SKU-100", categoryId := 1,
      price := 12, quantity := 3, lowStockThreshold := 10, supplierId := 1 } 2
    { id := 1, name := "Widget", sku := "SKU-100", description := "",
      categoryId := 1, supplierId := 1, price := 10, quantity := 5,
      lowStockThreshold := 10, isActive := true }
    (by decide) (by decide) rfl

/-- C10: after DELETE /products/:id soft-deletes an active product, the row
is invisible at the public read and stock interfaces while persisting:
GET /products/:id returns 404, POST /stock/products/:id with a validated
body returns 404 PRODUCT_NOT_FOUND without changing the state, the products
table keeps the same number of rows and still holds the row with is_active
false, and GET /products excludes the id from the page items and counts it
in neither the filtered rows nor the pagination total. -/
theorem softDeleteProduct_spec (s : InvState) (pid : Nat) (p : Product)
    (r : StockMovementReq) (uid mid : Nat) (wf : Bool)
    (hfind : findActiveProduct s.products pid = some p)
    (hval : stockMovementSchemaOk r = true) :
    (softDeleteProduct s pid).1 = .deleted pid ∧
    getProductById (softDeleteProduct s pid).2 pid = none ∧
    postStockMovement (softDeleteProduct s pid).2 pid r uid mid wf =
      (.productNotFound, (softDeleteProduct s pid).2) ∧
    (softDeleteProduct s pid).2.products.length = s.products.length ∧
    { p with isActive := false } ∈ (softDeleteProduct s pid).2.products ∧
    ∀ (ilike : String → String → Bool) (req : ListReq),
      (∀ q ∈ (listProducts ilike (softDeleteProduct s pid).2 req).1, q.id ≠ pid) ∧
      (listProducts ilike (softDeleteProduct s pid).2 req).2.total =
        ((softDeleteProduct s pid).2.products.filter
          (fun q => matchesList ilike req q)).length ∧
      (∀ q ∈ (softDeleteProduct s pid).2.products.filter
          (fun q => matchesList ilike req q), q.id ≠ pid) := by
  have heq : softDeleteProduct s pid =
      (.deleted pid,
       { s with products := s.products.map (fun q =>
           if q.id == pid && q.isActive then { q with isActive := false } else q) }) := by
    simp [softDeleteProduct, hfind]
  have hprods : (softDeleteProduct s pid).2.products = s.products.map (fun q =>
      if q.id == pid && q.isActive then { q with isActive := false } else q) := by
    rw [heq]
  have hnone : findActiveProduct (softDeleteProduct s pid).2.products pid = none := by
    rw [hprods]
    unfold findActiveProduct
    exact List.find?_eq_none.mpr (softDeleted_not_active s.products pid)
  have hid_not : ∀ q ∈ (softDeleteProduct s pid).2.products, q.isActive = true → q.id ≠ pid := by
    intro q hqmem hact
    rw [hprods] at hqmem
    have hnp := softDeleted_not_active s.products pid q hqmem
    intro hqid
    apply hnp
    simp [hqid, hact]
  refine ⟨by rw [heq], hnone, ?_, ?_, ?_, ?_⟩
  · simp [postStockMovement, hval, hnone]
  · rw [hprods]
    exact List.length_map s.products _
  · rw [hprods]
    rw [List.mem_map]
    unfold findActiveProduct at hfind
    refine ⟨p, List.mem_of_find?_eq_some hfind, ?_⟩
    rw [if_pos (List.find?_some hfind)]
  · intro ilike req
    refine ⟨?_, rfl, ?_⟩
    · intro q hq
      have hmemfil : q ∈ (softDeleteProduct s pid).2.products.filter
          (fun x => matchesList ilike req x) :=
        List.mem_of_mem_drop (List.mem_of_mem_take hq)
      rw [List.mem_filter] at hmemfil
      exact hid_not q hmemfil.1 (matchesList_active ilike req q hmemfil.2)
    · intro q hq
      rw [List.mem_filter] at hq
      exact hid_not q hq.1 (matchesList_active ilike req q hq.2)

/-- Witness for C10: soft-deleting the only product hides it from
GET /products/:id, POST /stock/products/:id and every GET /products query,
while its row survives with is_active false. -/
theorem softDeleteProduct_spec_witness :
    (softDeleteProduct
      { products := [{ id := 1, name := "Widget", sku := "SKU-100", description := "",
                       categoryId := 1, supplierId := 1, price := 10, quantity := 5,
                       lowStockThreshold := 10, isActive := true }],
        movements := [], categories := [1], suppliers := [1] } 1).1 = .deleted 1 ∧
    getProductById (softDeleteProduct
      { products := [{ id := 1, name := "Widget", sku := "SKU-100", description := "",
                       categoryId := 1, supplierId := 1, price := 10, quantity := 5,
                       lowStockThreshold := 10, isActive := true }],
        movements := [], categories := [1], suppliers := [1] } 1).2 1 = none ∧
    postStockMovement (softDeleteProduct
      { products := [{ id := 1, name := "Widget", sku := "SKU-100", description := "",
                       categoryId := 1, supplierId := 1, price := 10, quantity := 5,
                       lowStockThreshold := 10, isActive := true }],
        movements := [], categories := [1], suppliers := [1] } 1).2 1
      { quantity := 2, type := "in", reason := "restock", reference := "", notes := "" }
      7 9 false =
      (.productNotFound, (softDeleteProduct
        { products := [{ id := 1, name := "Widget", sku := "SKU-100", description := "",
                         categoryId := 1, supplierId := 1, price := 10, quantity := 5,
                         lowStockThreshold := 10, isActive := true }],
          movements := [], categories := [1], suppliers := [1] } 1).2) ∧
    (softDeleteProduct
      { products := [{ id := 1, name := "Widget", sku := "SKU-100", description := "",
                       categoryId := 1, supplierId := 1, price := 10, quantity := 5,
                       lowStockThreshold := 10, isActive := true }],
        movements := [], categories := [1], suppliers := [1] } 1).2.products.length = 1 ∧
    ({ id := 1, name := "Widget", sku := "SKU-100", description := "",
       categoryId := 1, supplierId := 1, price := 10, quantity := 5,
       lowStockThreshold := 10, isActive := false } : Product) ∈ (softDeleteProduct
      { products := [{ id := 1, name := "Widget", sku := "SKU-100", description := "",
                       categoryId := 1, supplierId := 1, price := 10, quantity := 5,
                       lowStockThreshold := 10, isActive := true }],
        movements := [], categories := [1], suppliers := [1] } 1).2.products ∧
    ∀ (ilike : String → String → Bool) (req : ListReq),
      (∀ q ∈ (listProducts ilike (softDeleteProduct
          { products := [{ id := 1, name := "Widget", sku := "SKU-100", description := "",
                           categoryId := 1, supplierId := 1, price := 10, quantity := 5,
                           lowStockThreshold := 10, isActive := true }],
            movements := [], categories := [1], suppliers := [1] } 1).2 req).1, q.id ≠ 1) ∧
      (listProducts ilike (softDeleteProduct
          { products := [{ id := 1, name := "Widget", sku := "SKU-100", description := "",
                           categoryId := 1, supplierId := 1, price := 10, quantity := 5,
                           lowStockThreshold := 10, isActive := true }],
            movements := [], categories := [1], suppliers := [1] } 1).2 req).2.total =
        ((softDeleteProduct
          { products := [{ id := 1, name := "Widget", sku := "SKU-100", description := "",
                           categoryId := 1, supplierId := 1, price := 10, quantity := 5,
                           lowStockThreshold := 10, isActive := true }],
            movements := [], categories := [1], suppliers := [1] } 1).2.products.filter
          (fun q => matchesList ilike req q)).length ∧
      (∀ q ∈ (softDeleteProduct
          { products := [{ id := 1, name := "Widget", sku := "SKU-100", description := "",
                           categoryId := 1, supplierId := 1, price := 10, quantity := 5,
                           lowStockThreshold := 10, isActive := true }],
            movements := [], categories := [1], suppliers := [1] } 1).2.products.filter
          (fun q => matchesList ilike req q), q.id ≠ 1) :=
  softDeleteProduct_spec
    { products := [{ id := 1, name := "Widget", sku := "SKU-100", description := "",
                     categoryId := 1, supplierId := 1, price := 10, quantity := 5,
                     lowStockThreshold := 10, isActive := true }],
      movements := [], categories := [1], suppliers := [1] } 1
    { id := 1, name := "Widget", sku := "SKU-100", description := "",
      categoryId := 1, supplierId := 1, price := 10, quantity := 5,
      lowStockThreshold := 10, isActive := true }
    { quantity := 2, type := "in", reason := "restock", reference := "", notes := "" }
    7 9 false (by decide) (by decide)

end Inventory
